import Mathlib

/-!
Verification development for the WsgiDAV `http_authenticator` middleware
(`src/wsgidav/http_authenticator.py`).

The Python source is shallowly embedded below.  External collaborators
(the domain controller, the `hashlib.md5` function, and the WSGI
environ) are modelled as parameters: the domain controller as a record of
functions, the hash as an abstract `String → String` argument, and the
environ as a small structure carrying the fields the middleware reads.
Unhandled Python exceptions are modelled by the `Response.crash`
constructor.  Logging is dropped (it does not affect control flow), and
the diagnostic reason list of `auth_digest_auth_request` is dropped as
well: only the boolean `is_invalid_req` that it accompanies decides the
outcome.
-/

namespace WsgiDav

/-! ## Small string helpers (Python semantics, ASCII range) -/

/-- Python `\w` character class for ASCII input: letters, digits, underscore. -/
def isWordChar (c : Char) : Bool :=
  c.isAlphanum || c == '_'

/-- Python `str.lower()` on the ASCII range (list-based so the kernel can
evaluate it). -/
def lowerStr (s : String) : String :=
  String.mk (s.toList.map Char.toLower)

/-- Python `str.upper()` on the ASCII range. -/
def upperStr (s : String) : String :=
  String.mk (s.toList.map Char.toUpper)

/-- Python `str.strip()`: remove leading and trailing whitespace. -/
def trimStr (s : String) : String :=
  String.mk (((s.toList.dropWhile Char.isWhitespace).reverse.dropWhile
    Char.isWhitespace).reverse)

/-- Python `str.startswith(pre)`. -/
def startsWithStr (s pre : String) : Bool :=
  s.toList.take pre.toList.length == pre.toList

/-- Python `str.strip('"')`: remove all leading and trailing double quotes. -/
def stripQuotes (s : String) : String :=
  String.mk (((s.toList.dropWhile (fun c => c == '"')).reverse.dropWhile
    (fun c => c == '"')).reverse)

/-- Does the character list contain two adjacent backslashes
(Python `r"\\" in s`)? -/
def hasDoubleBackslashAux : List Char → Bool
  | a :: b :: rest => (a == '\\' && b == '\\') || hasDoubleBackslashAux (b :: rest)
  | _ => false

/-- Python `s.replace("\\\\", "\\")`: collapse each non-overlapping pair of
backslashes (scanning left to right) into a single backslash. -/
def replaceDoubleBackslashAux : List Char → List Char
  | '\\' :: '\\' :: rest => '\\' :: replaceDoubleBackslashAux rest
  | c :: rest => c :: replaceDoubleBackslashAux rest
  | [] => []

/-- The Windows-XP username hotfix applied in `auth_digest_auth_request`:
if the username contains a doubled backslash, collapse the pairs. -/
def fix_username (u : String) : String :=
  if hasDoubleBackslashAux u.toList then
    String.mk (replaceDoubleBackslashAux u.toList)
  else u

/-- Python `s.split(c, 1)` unpacked into exactly two parts: `none` models the
`ValueError` raised when the separator does not occur. -/
def split_first (c : Char) (s : String) : Option (String × String) :=
  let pre := s.toList.takeWhile (fun x => x ≠ c)
  if pre.length = s.toList.length then none
  else some (String.mk pre, String.mk (s.toList.drop (pre.length + 1)))

/-! ## Header tokenizer

The source compiles two patterns in `HTTPAuthenticator.__init__`:

* primary: word-chars, `=`, a run of non-comma characters, `,`;
* fallback ("fix"): word-chars, `=`, a double-quoted value that contains at
  least one comma, `,`.

`re.findall` scans left to right, records non-overlapping leftmost matches
and resumes after each match.  Because `=` is not a word character and the
value classes exclude their own delimiter, the regexes never backtrack into
a different decomposition, so the scanners below reproduce `findall`
exactly for these two patterns. -/

/-- Try to match the primary pattern at the head of the list.  On success
returns (key, value, rest-after-the-comma). -/
def tryPrimaryAt (l : List Char) : Option (String × String × List Char) :=
  let key := l.takeWhile isWordChar
  if key.isEmpty then none
  else
    match l.drop key.length with
    | '=' :: rest2 =>
      let v := rest2.takeWhile (fun c => c ≠ ',')
      match rest2.drop v.length with
      | ',' :: rest4 => some (String.mk key, String.mk v, rest4)
      | _ => none
    | _ => none

def findallPrimaryAux : Nat → List Char → List (String × String)
  | 0, _ => []
  | _, [] => []
  | Nat.succ fuel, c :: rest =>
    match tryPrimaryAt (c :: rest) with
    | some (k, v, rem) => (k, v) :: findallPrimaryAux fuel rem
    | none => findallPrimaryAux fuel rest

/-- `re.findall` for the primary pattern (`self._header_parser` in the
source; the fuel equals the input length and is never exhausted because
every step consumes at least one character). -/
def findall_primary (s : String) : List (String × String) :=
  findallPrimaryAux s.toList.length s.toList

/-- Try to match the fallback ("fix") pattern at the head of the list.  The
captured value keeps its surrounding quotes, as group 2 of the regex does. -/
def tryFixAt (l : List Char) : Option (String × String × List Char) :=
  let key := l.takeWhile isWordChar
  if key.isEmpty then none
  else
    match l.drop key.length with
    | '=' :: '"' :: rest2 =>
      let content := rest2.takeWhile (fun c => c ≠ '"')
      match rest2.drop content.length with
      | '"' :: rest4 =>
        if content.contains ',' then
          match rest4 with
          | ',' :: rest5 =>
            some (String.mk key, String.mk ('"' :: (content ++ ['"'])), rest5)
          | _ => none
        else none
      | _ => none
    | _ => none

def findallFixAux : Nat → List Char → List (String × String)
  | 0, _ => []
  | _, [] => []
  | Nat.succ fuel, c :: rest =>
    match tryFixAt (c :: rest) with
    | some (k, v, rem) => (k, v) :: findallFixAux fuel rem
    | none => findallFixAux fuel rest

/-- `re.findall` for the fallback pattern (`self._header_fix_parser`). -/
def findall_fix (s : String) : List (String × String) :=
  findallFixAux s.toList.length s.toList

/-- The directive mapping built by `auth_digest_auth_request`: a list of
(key, value) pairs in the order the loop writes them into the Python dict. -/
abbrev AuthDict := List (String × String)

/-- Lookup in an `AuthDict` with Python-dict semantics: the value of the
last pair carrying the key (later writes win). -/
def dget (d : AuthDict) (k : String) : Option String :=
  match d with
  | [] => none
  | (k2, v) :: rest =>
    match dget rest k with
    | some v2 => some v2
    | none => if k2 == k then some v else none

/-- The dict-building loop of `auth_digest_auth_request`: primary matches,
extended by the fix matches when there are any, each value stripped of
whitespace and then of surrounding quotes. -/
def parse_auth_header (s : String) : AuthDict :=
  let primary := findall_primary s
  let fixl := findall_fix s
  let combined := if fixl.isEmpty then primary else primary ++ fixl
  combined.map (fun p => (p.1, stripQuotes (trimStr p.2)))

/-- `self._header_method.search(header)` followed by `.group(1).lower()`:
the pattern is anchored at the start, so this is the leading word-character
run, lowercased; `"None"` when there is no leading word character. -/
def header_method_token (s : String) : String :=
  let run := s.toList.takeWhile isWordChar
  if run.isEmpty then "None" else lowerStr (String.mk run)

/-! ## Base64 (`compat.base64_decodebytes`, i.e. `base64.decodebytes`)

This is Python standard-library behaviour, external to the repository:
non-alphabet characters are ignored, `=` terminates the data, and a
character count that cannot be completed to quads is an error
(`binascii.Error`), modelled as `none`. -/

/-- Value of a base64 alphabet character. -/
def b64val (c : Char) : Option Nat :=
  if 'A' ≤ c ∧ c ≤ 'Z' then some (c.toNat - 65)
  else if 'a' ≤ c ∧ c ≤ 'z' then some (c.toNat - 97 + 26)
  else if '0' ≤ c ∧ c ≤ '9' then some (c.toNat - 48 + 52)
  else if c = '+' then some 62
  else if c = '/' then some 63
  else none

/-- Decode 6-bit groups into bytes (a final group of one character cannot
occur here; it is rejected before this function is called). -/
def b64quads : List Nat → List Nat
  | a :: b :: c :: d :: rest =>
    (a * 4 + b / 16) :: ((b % 16) * 16 + c / 4) :: ((c % 4) * 64 + d) ::
      b64quads rest
  | [a, b] => [a * 4 + b / 16]
  | [a, b, c] => [a * 4 + b / 16, (b % 16) * 16 + c / 4]
  | _ => []

/-- `base64.decodebytes`: `none` models the `binascii.Error` raised on
incorrect padding. -/
def base64_decodebytes (s : String) : Option (List Nat) :=
  let relevant := s.toList.filter (fun c => (b64val c).isSome || c == '=')
  let data := relevant.takeWhile (fun c => c ≠ '=')
  let pads := relevant.length - data.length
  let idx := data.filterMap b64val
  if (data.length + pads) % 4 ≠ 0 ∨ idx.length % 4 = 1 then none
  else some (b64quads idx)

/-- `compat.to_native`: decode bytes to text (identity on the ASCII range,
which is all the embedding needs). -/
def bytes_to_text (bs : List Nat) : String :=
  String.mk (bs.map Char.ofNat)

/-! ## Data model -/

/-- The domain controller ("Identity Authority"), an external collaborator:
only the methods the middleware calls.  The WSGI `environ` argument the
source threads through is omitted: it is opaque to the middleware. -/
structure DomainController where
  get_domain_realm : String → String
  require_authentication : String → Bool
  is_realm_user : String → String → Bool
  auth_domain_user : String → String → String → Bool
  compute_http_digest_a1 : String → String → String

/-- The configuration fields read from `config["http_authenticator"]`. -/
structure AuthConfig where
  accept_basic : Bool
  accept_digest : Bool
  default_to_digest : Bool
  trusted_auth_header : Option String

/-- The WSGI environ fields the middleware reads.  `trusted_get` models
`environ.get(name)` for the configured trusted header. -/
structure Environ where
  path_info : String
  request_method : String
  http_authorization : Option String
  trusted_get : String → Option String

/-- The client-visible outcome of one request.  `forward` carries the two
environ annotations (`http_authenticator.realm`, `http_authenticator.user_name`)
and means the request reaches the protected application;
`basicChallenge`/`digestChallenge` are the 401 responses built by
`send_basic_auth_response` / `send_digest_auth_response` (each carries the
realm written into its `WWW-Authenticate` header); `badRequest` is the 400
response with its `Content-Length` header value and body; `crash` models an
unhandled Python exception escaping the middleware. -/
inductive Response where
  | forward (realm user_name : String)
  | basicChallenge (realm : String)
  | digestChallenge (realm : String)
  | badRequest (content_length : String) (body : List String)
  | crash (msg : String)
  deriving DecidableEq

def Response.isBasicChallenge : Response → Bool
  | .basicChallenge _ => true
  | _ => false

def Response.isForward : Response → Bool
  | .forward _ _ => true
  | _ => false

def Response.isCrash : Response → Bool
  | .crash _ => true
  | _ => false

/-- Module-level hotfix constant (set in the source). -/
def HOTFIX_WINXP_AcceptRootShareLogin : Bool := true

/-- Module-level hotfix constant (unset in the source). -/
def HOTFIX_WIN_AcceptAnonymousOptions : Bool := false

/-! ## Digest computation (`compute_digest_response`) -/

/-- `HTTPAuthenticator.compute_digest_response`.  `md5hex` abstracts
`md5(...).hexdigest()` from `hashlib`; A1 comes from the domain
controller.  `cnonce`, `qop` and `nc` are nullable as in the source; the
`if qop:` test is Python truthiness (`none` and the empty string both take
the else branch).  `none` as result models the `TypeError` Python would
raise when concatenating a `None` `nc`/`cnonce` in the qop branch. -/
def compute_digest_response (md5hex : String → String) (dc : DomainController)
    (realm user_name method uri nonce : String)
    (cnonce qop nc : Option String) : Option String :=
  let A1 := dc.compute_http_digest_a1 realm user_name
  let A2 := method ++ ":" ++ uri
  match qop with
  | some q =>
    if q = "" then some (md5hex (A1 ++ ":" ++ (nonce ++ ":" ++ md5hex A2)))
    else
      match nc, cnonce with
      | some ncv, some cn =>
        some (md5hex (A1 ++ ":" ++
          (nonce ++ ":" ++ ncv ++ ":" ++ cn ++ ":" ++ q ++ ":" ++ md5hex A2)))
      | _, _ => none
  | none => some (md5hex (A1 ++ ":" ++ (nonce ++ ":" ++ md5hex A2)))

/-! ## Digest request validation (`auth_digest_auth_request`) -/

/-- The username as used after parsing: the raw directive with the
double-backslash hotfix applied. -/
def username_of (d : AuthDict) : Option String :=
  (dget d "username").map fix_username

/-- The `startswith("digest")` structural check. -/
def inv_start (startOk : Bool) : Bool := !startOk

/-- Missing `username`, or not a realm user (`pre_check is False`). -/
def inv_username (dc : DomainController) (realm : String) (d : AuthDict) : Bool :=
  match username_of d with
  | none => true
  | some u => !(dc.is_realm_user realm u)

/-- `realm` directive mismatch, with the root-share hotfix exception. -/
def inv_realm (flag : Bool) (realm : String) (d : AuthDict) : Bool :=
  match dget d "realm" with
  | none => false
  | some r =>
    if upperStr r == upperStr realm then false
    else if flag && r == "/" then false
    else true

/-- `algorithm` directive present but not MD5. -/
def inv_algorithm (d : AuthDict) : Bool :=
  match dget d "algorithm" with
  | none => false
  | some a => !(upperStr a == "MD5")

/-- Missing `nonce`. -/
def inv_nonce (d : AuthDict) : Bool := (dget d "nonce").isNone

/-- `qop` directive present but not `auth` (case-insensitive). -/
def inv_qop (d : AuthDict) : Bool :=
  match dget d "qop" with
  | none => false
  | some q => !(lowerStr q == "auth")

/-- `cnonce` missing while `qop` is passed. -/
def inv_cnonce (d : AuthDict) : Bool :=
  (dget d "qop").isSome && (dget d "cnonce").isNone

/-- `nc` missing while `qop` is passed. -/
def inv_nc (d : AuthDict) : Bool :=
  (dget d "qop").isSome && (dget d "nc").isNone

/-- Missing `response`. -/
def inv_response (d : AuthDict) : Bool := (dget d "response").isNone

/-- The accumulated `is_invalid_req` flag of `auth_digest_auth_request`
just before the digest comparison.  The source sets it from independent,
non-short-circuiting checks, so the disjunction is order-insensitive.
Note that a missing `uri` directive sets no flag in the source (the
`if "uri" in auth_header_dict` block has no else branch). -/
def digest_structural_invalid (flag : Bool) (dc : DomainController)
    (path : String) (startOk : Bool) (d : AuthDict) : Bool :=
  let realm := dc.get_domain_realm path
  inv_start startOk || inv_username dc realm d || inv_realm flag realm d ||
    inv_algorithm d || inv_nonce d || inv_qop d || inv_cnonce d || inv_nc d ||
    inv_response d

/-- The decision core of `auth_digest_auth_request`, given the already
tokenized directives and the `startswith("digest")` result.  When the
structural checks pass but `uri` is absent, the Python function reads the
never-assigned local `req_uri` and raises `UnboundLocalError`, modelled by
`crash` (the other locals read at that point — `req_username`, `req_nonce`,
`req_response` — are always assigned when the checks pass). -/
def digest_verify (flag : Bool) (md5hex : String → String)
    (dc : DomainController) (method path : String) (startOk : Bool)
    (d : AuthDict) : Response :=
  let realm := dc.get_domain_realm path
  if digest_structural_invalid flag dc path startOk d then
    Response.digestChallenge realm
  else
    match dget d "uri" with
    | none => Response.crash "UnboundLocalError: req_uri"
    | some uri =>
      match username_of d, dget d "nonce", dget d "response" with
      | some u, some nonce, some resp =>
        match compute_digest_response md5hex dc realm u method uri nonce
            (dget d "cnonce") (dget d "qop") (dget d "nc") with
        | none => Response.crash "TypeError"
        | some required =>
          if required == resp then Response.forward realm u
          else if flag then
            match compute_digest_response md5hex dc "/" u method uri nonce
                (dget d "cnonce") (dget d "qop") (dget d "nc") with
            | none => Response.crash "TypeError"
            | some root =>
              if root == resp then Response.forward realm u
              else Response.digestChallenge realm
          else Response.digestChallenge realm
      | _, _, _ => Response.crash "UnboundLocalError"

/-- `HTTPAuthenticator.auth_digest_auth_request`: tokenize the header
(with the trailing comma the source appends) and decide. -/
def auth_digest_auth_request (flag : Bool) (md5hex : String → String)
    (dc : DomainController) (env : Environ) (auth_header : String) : Response :=
  digest_verify flag md5hex dc env.request_method env.path_info
    (startsWithStr (trimStr (lowerStr (auth_header ++ ","))) "digest")
    (parse_auth_header (auth_header ++ ","))

/-! ## Basic verification (`auth_basic_auth_request`) -/

/-- `HTTPAuthenticator.auth_basic_auth_request`.  The `try/except` in the
source only guards the slicing (which cannot fail); the base64 decode and
the two-way unpacking of `split(":", 1)` are unguarded, so their failures
escape as `crash`. -/
def auth_basic_auth_request (dc : DomainController) (env : Environ)
    (auth_header : String) : Response :=
  let realm := dc.get_domain_realm env.path_info
  let authvalue := trimStr (String.mk (auth_header.toList.drop 6))
  match base64_decodebytes authvalue with
  | none => Response.crash "binascii.Error: Incorrect padding"
  | some bs =>
    match split_first ':' (bytes_to_text bs) with
    | none => Response.crash "ValueError: not enough values to unpack"
    | some (user_name, password) =>
      if dc.auth_domain_user realm user_name password then
        Response.forward realm user_name
      else Response.basicChallenge realm

/-! ## The gate (`__call__`) -/

/-- The trusted-upstream-header acceptance test of `__call__`
(`if self.trusted_auth_header and environ.get(self.trusted_auth_header)`,
both tests are Python truthiness). -/
def trusted_user (cfg : AuthConfig) (env : Environ) : Option String :=
  match cfg.trusted_auth_header with
  | none => none
  | some h =>
    if h = "" then none
    else
      match env.trusted_get h with
      | none => none
      | some v => if v = "" then none else some v

/-- `HTTPAuthenticator.__call__`. -/
def call (flag : Bool) (md5hex : String → String) (cfg : AuthConfig)
    (dc : DomainController) (env : Environ) : Response :=
  let realm := dc.get_domain_realm env.path_info
  let force_allow :=
    HOTFIX_WIN_AcceptAnonymousOptions && env.request_method == "OPTIONS"
  if force_allow || !(dc.require_authentication realm) then
    Response.forward realm ""
  else
    match trusted_user cfg env with
    | some u => Response.forward realm u
    | none =>
      match env.http_authorization with
      | some auth_header =>
        let auth_method := header_method_token auth_header
        if auth_method == "digest" && cfg.accept_digest then
          auth_digest_auth_request flag md5hex dc env auth_header
        else if auth_method == "digest" && cfg.accept_basic then
          Response.basicChallenge realm
        else if auth_method == "basic" && cfg.accept_basic then
          auth_basic_auth_request dc env auth_header
        else if cfg.default_to_digest && cfg.accept_digest then
          Response.digestChallenge realm
        else if cfg.accept_basic then
          Response.basicChallenge realm
        else Response.badRequest "0" [""]
      | none =>
        if cfg.default_to_digest then Response.digestChallenge realm
        else Response.basicChallenge realm

/-! ## Concrete test fixtures (used by witnesses and counterexamples) -/

/-- An abstract stand-in for `md5(...).hexdigest()`: injective tagging. -/
def md5Test : String → String := fun s => "H(" ++ s ++ ")"

/-- A domain controller for a share `/dav` that requires authentication
and knows every username. -/
def dcTest : DomainController where
  get_domain_realm := fun _ => "/dav"
  require_authentication := fun _ => true
  is_realm_user := fun _ _ => true
  auth_domain_user := fun _ u p => u == "tester" && p == "secret"
  compute_http_digest_a1 := fun r u => "A1(" ++ r ++ ";" ++ u ++ ")"

/-- A domain controller whose realm requires no authentication. -/
def dcAnon : DomainController where
  get_domain_realm := fun _ => "/pub"
  require_authentication := fun _ => false
  is_realm_user := fun _ _ => false
  auth_domain_user := fun _ _ _ => false
  compute_http_digest_a1 := fun _ _ => ""

/-- A request with no `Authorization` header. -/
def envNone : Environ where
  path_info := "/dav/f.txt"
  request_method := "GET"
  http_authorization := none
  trusted_get := fun _ => none

/-- A request carrying the given `Authorization` header. -/
def envWith (h : String) : Environ where
  path_info := "/dav/f.txt"
  request_method := "GET"
  http_authorization := some h
  trusted_get := fun _ => none

/-- Digest refused, basic accepted (the downgrade configuration). -/
def cfgDowngrade : AuthConfig where
  accept_basic := true
  accept_digest := false
  default_to_digest := true
  trusted_auth_header := none

/-- Both schemes accepted, digest the default. -/
def cfgAll : AuthConfig where
  accept_basic := true
  accept_digest := true
  default_to_digest := true
  trusted_auth_header := none

/-- A structurally valid digest directive set (no qop) for realm `/dav`. -/
def dValid : AuthDict :=
  [("username", "u"), ("realm", "/dav"), ("uri", "/f"), ("nonce", "n"),
   ("response", "r")]

/-- Directives with qop absent and cnonce/nc absent as well. -/
def dNoQop : AuthDict :=
  [("username", "u"), ("nonce", "n"), ("response", "r")]

/-! ## Association-list lemmas for the directive dictionary -/

theorem dget_append_of_some (xs ys : AuthDict) (k v : String)
    (h : dget ys k = some v) : dget (xs ++ ys) k = some v := by
  induction xs with
  | nil => simpa using h
  | cons p xs ih =>
    obtain ⟨k2, v2⟩ := p
    simp only [List.cons_append, dget, List.append_eq, ih]

/-- `dget` after the value-cleaning `map` of `parse_auth_header`. -/
theorem dget_map_clean (l : AuthDict) (k : String) :
    dget (l.map (fun p => (p.1, stripQuotes (trimStr p.2)))) k
      = (dget l k).map (fun x => stripQuotes (trimStr x)) := by
  induction l with
  | nil => rfl
  | cons p l ih =>
    obtain ⟨k2, v2⟩ := p
    simp only [List.map_cons, dget, ih]
    cases dget l k with
    | none => by_cases hk : k2 == k <;> simp [hk]
    | some w => simp

/-! ## Claim theorems -/

/-- C1: `compute_digest_response` returns
`MD5hex(A1 : nonce : nc : cnonce : qop : MD5hex(method:uri))` when qop is
set (a set qop is a non-empty one, per the `if qop:` truthiness test of the
source), and `MD5hex(A1 : nonce : MD5hex(method:uri))` when qop is not
set, where A1 is the credential hash the domain controller supplies for
(realm, username). -/
theorem compute_digest_response_formula (md5hex : String → String)
    (dc : DomainController) (realm user_name method uri nonce ncv cn q : String) :
    (q ≠ "" →
      compute_digest_response md5hex dc realm user_name method uri nonce
          (some cn) (some q) (some ncv)
        = some (md5hex (dc.compute_http_digest_a1 realm user_name ++ ":" ++ nonce
            ++ ":" ++ ncv ++ ":" ++ cn ++ ":" ++ q ++ ":"
            ++ md5hex (method ++ ":" ++ uri)))) ∧
    (∀ cnonce nc : Option String,
      compute_digest_response md5hex dc realm user_name method uri nonce
          cnonce none nc
        = some (md5hex (dc.compute_http_digest_a1 realm user_name ++ ":" ++ nonce
            ++ ":" ++ md5hex (method ++ ":" ++ uri)))) := by
  constructor
  · intro hq
    simp [compute_digest_response, hq, String.append_assoc]
  · intro cnonce nc
    simp [compute_digest_response, String.append_assoc]

/-- Witness for C1 at concrete inputs. -/
theorem compute_digest_response_formula_witness :
    ("auth" ≠ "" ∧
      compute_digest_response md5Test dcTest "/dav" "u" "GET" "/f" "n"
          (some "c") (some "auth") (some "01")
        = some (md5Test (dcTest.compute_http_digest_a1 "/dav" "u" ++ ":" ++ "n"
            ++ ":" ++ "01" ++ ":" ++ "c" ++ ":" ++ "auth" ++ ":"
            ++ md5Test ("GET" ++ ":" ++ "/f")))) ∧
    compute_digest_response md5Test dcTest "/dav" "u" "GET" "/f" "n"
        (some "c") none (some "01")
      = some (md5Test (dcTest.compute_http_digest_a1 "/dav" "u" ++ ":" ++ "n"
          ++ ":" ++ md5Test ("GET" ++ ":" ++ "/f"))) :=
  ⟨⟨by decide,
    (compute_digest_response_formula md5Test dcTest "/dav" "u" "GET" "/f" "n"
      "01" "c" "auth").1 (by decide)⟩,
   (compute_digest_response_formula md5Test dcTest "/dav" "u" "GET" "/f" "n"
      "01" "c" "auth").2 (some "c") (some "01")⟩

/-- C5: whenever the fallback tokenizer pass produced a value for a key,
the final directive mapping holds that (stripped) fallback value — the
fallback entries are appended after the primary ones and the dict's last
write wins; and every stored value is some raw match with surrounding
whitespace and then surrounding double quotes stripped. -/
theorem tokenizer_fallback_wins (s : String) :
    (∀ k v, dget (findall_fix s) k = some v →
        dget (parse_auth_header s) k = some (stripQuotes (trimStr v))) ∧
    (∀ k v, dget (parse_auth_header s) k = some v →
        ∃ raw : String, v = stripQuotes (trimStr raw)) := by
  constructor
  · intro k v h
    have hne : (findall_fix s).isEmpty = false := by
      cases hfe : findall_fix s with
      | nil => rw [hfe] at h; simp [dget] at h
      | cons a t => simp
    unfold parse_auth_header
    simp only [hne, Bool.false_eq_true, if_false, dget_map_clean]
    rw [dget_append_of_some _ _ _ _ h]
    rfl
  · intro k v h
    unfold parse_auth_header at h
    simp only [dget_map_clean] at h
    obtain ⟨raw, _, hv⟩ := Option.map_eq_some'.mp h
    exact ⟨raw, hv.symm⟩

/-- Witness for C5: the un-encoded-comma header from the source's own
docstring example; the fallback pass recovers `uri = a,b.txt`. -/
theorem tokenizer_fallback_wins_witness :
    dget (parse_auth_header
        "Digest username=\"user\", realm=\"/\", uri=\"a,b.txt\", nc=00000001,")
        "uri"
      = some (stripQuotes (trimStr "\"a,b.txt\"")) :=
  (tokenizer_fallback_wins
      "Digest username=\"user\", realm=\"/\", uri=\"a,b.txt\", nc=00000001,").1
    "uri" "\"a,b.txt\"" (by decide)

/-- C6: if the `qop` directive is present it must be `auth`
(case-insensitively) and both `cnonce` and `nc` must be present, else the
request is structurally invalid; with `qop` absent, the cnonce/nc/qop
checks contribute nothing to the verdict. -/
theorem qop_structural_checks (flag : Bool) (dc : DomainController)
    (path : String) (startOk : Bool) (d : AuthDict) :
    (∀ q, dget d "qop" = some q → lowerStr q ≠ "auth" →
        digest_structural_invalid flag dc path startOk d = true) ∧
    ((dget d "qop").isSome = true → dget d "cnonce" = none →
        digest_structural_invalid flag dc path startOk d = true) ∧
    ((dget d "qop").isSome = true → dget d "nc" = none →
        digest_structural_invalid flag dc path startOk d = true) ∧
    (dget d "qop" = none →
        digest_structural_invalid flag dc path startOk d
          = (inv_start startOk
             || inv_username dc (dc.get_domain_realm path) d
             || inv_realm flag (dc.get_domain_realm path) d
             || inv_algorithm d || inv_nonce d || inv_response d)) := by
  refine ⟨?_, ?_, ?_, ?_⟩
  · intro q hq hne
    simp [digest_structural_invalid, inv_qop, hq, hne]
  · intro hq hc
    simp [digest_structural_invalid, inv_cnonce, hq, hc]
  · intro hq hn
    simp [digest_structural_invalid, inv_nc, hq, hn]
  · intro hq
    simp [digest_structural_invalid, inv_qop, inv_cnonce, inv_nc, hq]

/-- Witness for C6 on concrete directive sets. -/
theorem qop_structural_checks_witness :
    digest_structural_invalid true dcTest "/dav/f.txt" true
        [("qop", "auth-int")] = true ∧
    digest_structural_invalid true dcTest "/dav/f.txt" true
        [("qop", "auth"), ("nc", "01")] = true ∧
    digest_structural_invalid true dcTest "/dav/f.txt" true
        [("qop", "auth"), ("cnonce", "c")] = true ∧
    digest_structural_invalid true dcTest "/dav/f.txt" true dNoQop
      = (inv_start true
         || inv_username dcTest (dcTest.get_domain_realm "/dav/f.txt") dNoQop
         || inv_realm true (dcTest.get_domain_realm "/dav/f.txt") dNoQop
         || inv_algorithm dNoQop || inv_nonce dNoQop || inv_response dNoQop) :=
  ⟨(qop_structural_checks true dcTest "/dav/f.txt" true
      [("qop", "auth-int")]).1 "auth-int" (by decide) (by decide),
   (qop_structural_checks true dcTest "/dav/f.txt" true
      [("qop", "auth"), ("nc", "01")]).2.1 (by decide) (by decide),
   (qop_structural_checks true dcTest "/dav/f.txt" true
      [("qop", "auth"), ("cnonce", "c")]).2.2.1 (by decide) (by decide),
   (qop_structural_checks true dcTest "/dav/f.txt" true dNoQop).2.2.2
     (by decide)⟩

/-- C9: when the resolved realm does not require authentication, the gate
forwards the request annotated with that realm and the empty user name,
whatever the rest of the request (in particular whether an Authorization
header is present). -/
theorem anonymous_realm_forward (flag : Bool) (md5hex : String → String)
    (cfg : AuthConfig) (dc : DomainController) (env : Environ)
    (h : dc.require_authentication (dc.get_domain_realm env.path_info) = false) :
    call flag md5hex cfg dc env
      = Response.forward (dc.get_domain_realm env.path_info) "" := by
  simp [call, HOTFIX_WIN_AcceptAnonymousOptions, h]

/-- Witness for C9: the anonymous realm, once with and once without an
Authorization header. -/
theorem anonymous_realm_forward_witness :
    call true md5Test cfgAll dcAnon envNone
      = Response.forward (dcAnon.get_domain_realm envNone.path_info) "" ∧
    call true md5Test cfgAll dcAnon (envWith "Basic dXNlcg==")
      = Response.forward
          (dcAnon.get_domain_realm (envWith "Basic dXNlcg==").path_info) "" :=
  ⟨anonymous_realm_forward true md5Test cfgAll dcAnon envNone (by decide),
   anonymous_realm_forward true md5Test cfgAll dcAnon (envWith "Basic dXNlcg==")
     (by decide)⟩

/-- C7: an Authorization header whose method token is `digest` while
digest is not accepted but basic is draws a Basic challenge (downgrade),
not a Digest challenge and not a 400. -/
theorem digest_downgrade_to_basic (flag : Bool) (md5hex : String → String)
    (cfg : AuthConfig) (dc : DomainController) (env : Environ) (hdr : String)
    (hreq : dc.require_authentication (dc.get_domain_realm env.path_info) = true)
    (htr : trusted_user cfg env = none)
    (hauth : env.http_authorization = some hdr)
    (htok : header_method_token hdr = "digest")
    (hdig : cfg.accept_digest = false)
    (hbas : cfg.accept_basic = true) :
    call flag md5hex cfg dc env
      = Response.basicChallenge (dc.get_domain_realm env.path_info) := by
  simp [call, HOTFIX_WIN_AcceptAnonymousOptions, hreq, htr, hauth, htok, hdig,
    hbas]

/-- Witness for C7. -/
theorem digest_downgrade_to_basic_witness :
    call true md5Test cfgDowngrade dcTest (envWith "Digest username=\"u\"")
      = Response.basicChallenge
          (dcTest.get_domain_realm (envWith "Digest username=\"u\"").path_info) :=
  digest_downgrade_to_basic true md5Test cfgDowngrade dcTest
    (envWith "Digest username=\"u\"") "Digest username=\"u\""
    (by decide) (by decide) rfl (by decide) (by decide) (by decide)

/-- C8: an Authorization header whose method token is neither `digest` nor
`basic` draws a Digest challenge when digest is the accepted default, else
a Basic challenge when basic is accepted, else a 400 with empty body and
`Content-Length: 0`. -/
theorem unsupported_token_fallback (flag : Bool) (md5hex : String → String)
    (cfg : AuthConfig) (dc : DomainController) (env : Environ) (hdr : String)
    (hreq : dc.require_authentication (dc.get_domain_realm env.path_info) = true)
    (htr : trusted_user cfg env = none)
    (hauth : env.http_authorization = some hdr)
    (ht1 : header_method_token hdr ≠ "digest")
    (ht2 : header_method_token hdr ≠ "basic") :
    call flag md5hex cfg dc env
      = (if cfg.default_to_digest && cfg.accept_digest then
          Response.digestChallenge (dc.get_domain_realm env.path_info)
        else if cfg.accept_basic then
          Response.basicChallenge (dc.get_domain_realm env.path_info)
        else Response.badRequest "0" [""]) := by
  have e1 : (header_method_token hdr == "digest") = false := by
    simpa using ht1
  have e2 : (header_method_token hdr == "basic") = false := by
    simpa using ht2
  simp [call, HOTFIX_WIN_AcceptAnonymousOptions, hreq, htr, hauth, e1, e2]

/-- Witness for C8: a `Bearer` token under three configurations. -/
theorem unsupported_token_fallback_witness :
    call true md5Test cfgAll dcTest (envWith "Bearer xyz")
      = (if cfgAll.default_to_digest && cfgAll.accept_digest then
          Response.digestChallenge
            (dcTest.get_domain_realm (envWith "Bearer xyz").path_info)
        else if cfgAll.accept_basic then
          Response.basicChallenge
            (dcTest.get_domain_realm (envWith "Bearer xyz").path_info)
        else Response.badRequest "0" [""]) ∧
    call true md5Test (AuthConfig.mk false false false none) dcTest
        (envWith "Bearer xyz")
      = (if (AuthConfig.mk false false false none).default_to_digest
            && (AuthConfig.mk false false false none).accept_digest then
          Response.digestChallenge
            (dcTest.get_domain_realm (envWith "Bearer xyz").path_info)
        else if (AuthConfig.mk false false false none).accept_basic then
          Response.basicChallenge
            (dcTest.get_domain_realm (envWith "Bearer xyz").path_info)
        else Response.badRequest "0" [""]) :=
  ⟨unsupported_token_fallback true md5Test cfgAll dcTest (envWith "Bearer xyz")
      "Bearer xyz" (by decide) (by decide) rfl (by decide) (by decide),
   unsupported_token_fallback true md5Test (AuthConfig.mk false false false none)
      dcTest (envWith "Bearer xyz") "Bearer xyz"
      (by decide) (by decide) rfl (by decide) (by decide)⟩

/-- When the qop-related structural checks pass, `compute_digest_response`
on the request's directives never hits its `TypeError` case, for any realm
and user. -/
theorem compute_some_of_checks (md5hex : String → String)
    (dc : DomainController) (d : AuthDict)
    (hq : inv_qop d = false) (hc : inv_cnonce d = false) (hn : inv_nc d = false)
    (realm u method uri nonce : String) :
    ∃ r, compute_digest_response md5hex dc realm u method uri nonce
        (dget d "cnonce") (dget d "qop") (dget d "nc") = some r := by
  refine Option.isSome_iff_exists.mp ?_
  cases hqq : dget d "qop" with
  | none => simp [compute_digest_response, hqq]
  | some q =>
    have hq' : lowerStr q = "auth" := by
      simpa [inv_qop, hqq] using hq
    have hqe : q ≠ "" := fun h => absurd (h ▸ hq') (by decide)
    cases hcc : dget d "cnonce" with
    | none => simp [inv_cnonce, hqq, hcc] at hc
    | some cn =>
      cases hnn : dget d "nc" with
      | none => simp [inv_nc, hqq, hnn] at hn
      | some ncv =>
        simp [compute_digest_response, hqq, hcc, hnn, hqe]

/-- C2: for a digest request that passes every structural check, the gate
forwards exactly when the expected digest for the resolved realm matches
the `response` directive, or — with the root-share hotfix enabled — when
the expected digest recomputed for realm `/` matches; otherwise the
request draws a (digest) challenge. -/
theorem digest_root_share_gate (flag : Bool) (md5hex : String → String)
    (dc : DomainController) (method path : String) (startOk : Bool)
    (d : AuthDict) (uri nonce resp u : String)
    (hok : digest_structural_invalid flag dc path startOk d = false)
    (huri : dget d "uri" = some uri)
    (huser : username_of d = some u)
    (hnonce : dget d "nonce" = some nonce)
    (hresp : dget d "response" = some resp) :
    (digest_verify flag md5hex dc method path startOk d
        = Response.forward (dc.get_domain_realm path) u
      ↔ (compute_digest_response md5hex dc (dc.get_domain_realm path) u method
            uri nonce (dget d "cnonce") (dget d "qop") (dget d "nc") = some resp
         ∨ (flag = true ∧
            compute_digest_response md5hex dc "/" u method uri nonce
              (dget d "cnonce") (dget d "qop") (dget d "nc") = some resp)))
    ∧ (digest_verify flag md5hex dc method path startOk d
        = Response.forward (dc.get_domain_realm path) u
      ∨ digest_verify flag md5hex dc method path startOk d
        = Response.digestChallenge (dc.get_domain_realm path)) := by
  have hok' := hok
  simp only [digest_structural_invalid, Bool.or_eq_false_iff] at hok'
  obtain ⟨⟨⟨⟨⟨⟨⟨⟨-, -⟩, -⟩, -⟩, -⟩, h6⟩, h7⟩, h8⟩, -⟩ := hok'
  obtain ⟨r1, hr1⟩ := compute_some_of_checks md5hex dc d h6 h7 h8
    (dc.get_domain_realm path) u method uri nonce
  obtain ⟨r2, hr2⟩ := compute_some_of_checks md5hex dc d h6 h7 h8
    "/" u method uri nonce
  simp only [digest_verify, hok, Bool.false_eq_true, if_false, huri, huser,
    hnonce, hresp, hr1, hr2]
  by_cases h1 : r1 = resp <;> by_cases hf : flag = true <;>
    by_cases h2 : r2 = resp <;> simp_all

/-- Witness for C2 on a concrete structurally valid request. -/
theorem digest_root_share_gate_witness :
    (digest_verify true md5Test dcTest "GET" "/dav/f.txt" true dValid
        = Response.forward (dcTest.get_domain_realm "/dav/f.txt") "u"
      ↔ (compute_digest_response md5Test dcTest
            (dcTest.get_domain_realm "/dav/f.txt") "u" "GET" "/f" "n"
            (dget dValid "cnonce") (dget dValid "qop") (dget dValid "nc")
              = some "r"
         ∨ (true = true ∧
            compute_digest_response md5Test dcTest "/" "u" "GET" "/f" "n"
              (dget dValid "cnonce") (dget dValid "qop") (dget dValid "nc")
                = some "r")))
    ∧ (digest_verify true md5Test dcTest "GET" "/dav/f.txt" true dValid
        = Response.forward (dcTest.get_domain_realm "/dav/f.txt") "u"
      ∨ digest_verify true md5Test dcTest "GET" "/dav/f.txt" true dValid
        = Response.digestChallenge (dcTest.get_domain_realm "/dav/f.txt")) :=
  digest_root_share_gate true md5Test dcTest "GET" "/dav/f.txt" true dValid
    "/f" "n" "r" "u" (by decide) (by decide) (by decide) (by decide) (by decide)

/-- Every outcome of `digest_verify` is a forward, a digest challenge for
the resolved realm, or a crash. -/
theorem digest_verify_cases (flag : Bool) (md5hex : String → String)
    (dc : DomainController) (method path : String) (startOk : Bool)
    (d : AuthDict) :
    (∃ u, digest_verify flag md5hex dc method path startOk d
        = Response.forward (dc.get_domain_realm path) u) ∨
    digest_verify flag md5hex dc method path startOk d
      = Response.digestChallenge (dc.get_domain_realm path) ∨
    (∃ m, digest_verify flag md5hex dc method path startOk d
        = Response.crash m) := by
  simp only [digest_verify]
  repeat' split
  all_goals first
    | exact Or.inl ⟨_, rfl⟩
    | exact Or.inr (Or.inl rfl)
    | exact Or.inr (Or.inr ⟨_, rfl⟩)

/-- C10: a digest request that verification rejects is always answered
with a Digest challenge for the resolved realm — never a Basic challenge,
whatever the configuration flags (which `auth_digest_auth_request` never
consults). -/
theorem digest_reject_scheme (flag : Bool) (md5hex : String → String)
    (dc : DomainController) (method path : String) (startOk : Bool)
    (d : AuthDict) :
    (digest_verify flag md5hex dc method path startOk d).isBasicChallenge
        = false ∧
    ((digest_verify flag md5hex dc method path startOk d).isForward = false →
     (digest_verify flag md5hex dc method path startOk d).isCrash = false →
     digest_verify flag md5hex dc method path startOk d
       = Response.digestChallenge (dc.get_domain_realm path)) := by
  rcases digest_verify_cases flag md5hex dc method path startOk d with
    ⟨u, h⟩ | h | ⟨m, h⟩ <;> rw [h] <;>
    simp [Response.isBasicChallenge, Response.isForward, Response.isCrash]

/-- Witness for C10: a structurally invalid digest request (empty
directive set) is answered with a digest challenge, and is no basic
challenge. -/
theorem digest_reject_scheme_witness :
    (digest_verify true md5Test dcTest "GET" "/dav/f.txt" true []).isBasicChallenge
        = false ∧
    digest_verify true md5Test dcTest "GET" "/dav/f.txt" true []
      = Response.digestChallenge (dcTest.get_domain_realm "/dav/f.txt") :=
  ⟨(digest_reject_scheme true md5Test dcTest "GET" "/dav/f.txt" true []).1,
   (digest_reject_scheme true md5Test dcTest "GET" "/dav/f.txt" true []).2
     (by decide) (by decide)⟩

/-- C3 (code bug): a digest header carrying every required directive
except `uri`, for an existing realm user, passes all the structural checks
the code actually performs — and then `auth_digest_auth_request` reads the
never-assigned local `req_uri` and raises `UnboundLocalError`, instead of
treating the request as invalid and answering 401. -/
theorem digest_missing_uri_crash :
    digest_structural_invalid true dcTest "/dav/f.txt" true
        (parse_auth_header
          ("Digest username=\"u\", realm=\"/dav\", nonce=\"n\", response=\"r\""
            ++ ","))
      = false ∧
    auth_digest_auth_request true md5Test dcTest envNone
        "Digest username=\"u\", realm=\"/dav\", nonce=\"n\", response=\"r\""
      = Response.crash "UnboundLocalError: req_uri" :=
  ⟨by decide, by decide⟩

/-- C4 (code bug): a Basic header whose payload decodes to text without a
colon makes `auth_basic_auth_request` raise `ValueError` (the two-way
unpacking of `split(":", 1)` fails), and a payload that is not valid
base64 makes it raise `binascii.Error`; neither is caught, so no 401
challenge is sent. -/
theorem basic_malformed_crash :
    auth_basic_auth_request dcTest (envWith "Basic dXNlcg==") "Basic dXNlcg=="
      = Response.crash "ValueError: not enough values to unpack" ∧
    auth_basic_auth_request dcTest (envWith "Basic dXNlcg") "Basic dXNlcg"
      = Response.crash "binascii.Error: Incorrect padding" :=
  ⟨by decide, by decide⟩

end WsgiDav
